import Mathlib

/-!
# Verification of the ant-colony simulation core (`sim.py`)

Shallow embedding conventions:
* Python floats are embedded as exact rationals (`ℚ`); decimal literals of the
  source denote the rational value the decimal denotes.
* `math.cos`, `math.sin`, `math.atan2` are machine approximations of
  transcendental functions; they are abstracted as an arbitrary function
  record (`Trig`).  No claim below depends on their values.
* `math.pi` is embedded as the rational `mathPi` (the shortest decimal
  representation of the float64 value of `math.pi`).
* Python `int(x)` truncates toward zero; this is `pyInt`.
* Python `%` on floats is `a - b * floor (a / b)`; this is `pymod`.
* `np.linalg.norm(u - v) < r` (with `r ≥ 0`) is embedded as the equivalent
  squared comparison `distSq u v < r ^ 2`, avoiding square roots.
* The calls to `random.uniform` in one agent update (at most one draw in
  `(-1, 1)` for wander and one draw in `(-0.5, 0.5)` for boundary jitter) are
  supplied as a `Draws` record.
-/

-- SIMULATION CONSTANTS from sim.py

def SCREEN_WIDTH : ℤ := 1280

def SCREEN_HEIGHT : ℤ := 720

def ANT_SPEED : ℚ := 1.5

def ANT_ROTATION_SPEED : ℚ := 0.2

def mathPi : ℚ := 3.141592653589793

def ANT_SENSOR_ANGLE : ℚ := mathPi / 4

def ANT_SENSOR_DISTANCE : ℚ := 10

def WANDER_STRENGTH : ℚ := 0.3

def EVAPORATION_RATE : ℚ := 0.998

def DIFFUSION_INTERVAL : ℕ := 5

def MAX_PHEROMONE : ℚ := 1000

def PHEROMONE_DEPOSIT_AMOUNT : ℚ := 500

def NEST_GRAVITY_STRENGTH : ℚ := 0.1

def MAX_PATIENCE : ℤ := 300

def PANIC_DURATION : ℤ := 100

-- THE PHEROMONE GRIDS

/-- A pheromone grid, indexed as `grid y x` like the numpy arrays
`grid[y, x]` of shape `(SCREEN_HEIGHT, SCREEN_WIDTH)`. -/
abbrev Grid : Type := ℤ → ℤ → ℚ

def zeroGrid : Grid := fun _ _ => 0

/-- Python `int()` applied to a float: truncation toward zero. -/
def pyInt (q : ℚ) : ℤ := if q < 0 then ⌈q⌉ else ⌊q⌋

/-- Python `%` on floats (`b > 0` in every use here). -/
def pymod (a b : ℚ) : ℚ := a - b * ⌊a / b⌋

/-- `((d + π) % (2π)) - π`, the wrapped angle difference used by the
CARRYING_FOOD decision logic of `Ant.update` (sim.py lines 135-139, 153). -/
def wrapDiff (d : ℚ) : ℚ := pymod (d + mathPi) (2 * mathPi) - mathPi

/-- `get_pheromone_value` (sim.py lines 89-93): sample the grid at the
`int()`-truncated coordinates, 0 when the truncated cell is out of bounds. -/
def get_pheromone_value (pos : ℚ × ℚ) (grid : Grid) : ℚ :=
  if 0 ≤ pyInt pos.1 ∧ pyInt pos.1 < SCREEN_WIDTH ∧
      0 ≤ pyInt pos.2 ∧ pyInt pos.2 < SCREEN_HEIGHT then
    grid (pyInt pos.2) (pyInt pos.1)
  else 0

/-- The deposit pattern of `Ant.interact_with_objects` (sim.py lines 182-184,
193-195): saturating add at the `int()`-truncated cell, no-op out of bounds. -/
def depositGrid (g : Grid) (pos : ℚ × ℚ) (amt : ℚ) : Grid :=
  if 0 ≤ pyInt pos.1 ∧ pyInt pos.1 < SCREEN_WIDTH ∧
      0 ≤ pyInt pos.2 ∧ pyInt pos.2 < SCREEN_HEIGHT then
    fun y x =>
      if y = pyInt pos.2 ∧ x = pyInt pos.1 then
        min MAX_PHEROMONE (g (pyInt pos.2) (pyInt pos.1) + amt)
      else g y x
  else g

/-- Squared Euclidean distance; `‖u - v‖ < r` is embedded as
`distSq u v < r ^ 2`. -/
def distSq (u v : ℚ × ℚ) : ℚ := (u.1 - v.1) ^ 2 + (u.2 - v.2) ^ 2

-- AGENTS, FOOD, RANDOM DRAWS, TRIG ORACLE

inductive TaskState where
  | SEARCHING : TaskState
  | CARRYING_FOOD : TaskState
deriving DecidableEq, Repr

structure Ant where
  pos : ℚ × ℚ
  angle : ℚ
  speed : ℚ
  state : TaskState
  patience : ℤ
  panic_timer : ℤ
deriving DecidableEq, Repr

/-- `Ant.__init__` (sim.py lines 66-74); `θ` is the `random.uniform(0, 2π)`
draw for the initial angle. -/
def Ant.mkInit (x y θ : ℚ) : Ant :=
  { pos := (x, y)
    angle := θ
    speed := ANT_SPEED
    state := TaskState.SEARCHING
    patience := MAX_PATIENCE
    panic_timer := 0 }

structure Food where
  pos : ℚ × ℚ
  amount : ℤ
deriving DecidableEq, Repr

/-- The random draws consumed by one `Ant.update`: `u` is the
`random.uniform(-1, 1)` wander draw, `j` the `random.uniform(-0.5, 0.5)`
boundary jitter draw. -/
structure Draws where
  u : ℚ
  j : ℚ
deriving DecidableEq, Repr

/-- Abstraction of the float approximations `math.cos`, `math.sin`,
`math.atan2`. -/
structure Trig where
  cos : ℚ → ℚ
  sin : ℚ → ℚ
  atan2 : ℚ → ℚ → ℚ

/-- `pos + speed * (cos angle, sin angle)`, the movement step. -/
def stepPos (t : Trig) (p : ℚ × ℚ) (angle speed : ℚ) : ℚ × ℚ :=
  (p.1 + speed * t.cos angle, p.2 + speed * t.sin angle)

def sensorAhead (t : Trig) (a : Ant) : ℚ × ℚ :=
  (a.pos.1 + ANT_SENSOR_DISTANCE * t.cos a.angle,
   a.pos.2 + ANT_SENSOR_DISTANCE * t.sin a.angle)

def sensorLeft (t : Trig) (a : Ant) : ℚ × ℚ :=
  (a.pos.1 + ANT_SENSOR_DISTANCE * t.cos (a.angle - ANT_SENSOR_ANGLE),
   a.pos.2 + ANT_SENSOR_DISTANCE * t.sin (a.angle - ANT_SENSOR_ANGLE))

def sensorRight (t : Trig) (a : Ant) : ℚ × ℚ :=
  (a.pos.1 + ANT_SENSOR_DISTANCE * t.cos (a.angle + ANT_SENSOR_ANGLE),
   a.pos.2 + ANT_SENSOR_DISTANCE * t.sin (a.angle + ANT_SENSOR_ANGLE))

-- DECISION LOGIC (sim.py lines 96-154)

/-- SEARCHING branch of `Ant.update` (sim.py lines 97-118): returns the
`on_trail` flag and the updated angle. -/
def searchDecision (t : Trig) (r : Draws) (a : Ant) (food : Grid) : Bool × ℚ :=
  let smell_ahead := get_pheromone_value (sensorAhead t a) food
  let smell_left := get_pheromone_value (sensorLeft t a) food
  let smell_right := get_pheromone_value (sensorRight t a) food
  (decide (10 < smell_ahead),
    if smell_ahead > smell_left ∧ smell_ahead > smell_right then
      a.angle + r.u * WANDER_STRENGTH
    else if smell_left > smell_right then a.angle - ANT_ROTATION_SPEED
    else if smell_right > smell_left then a.angle + ANT_ROTATION_SPEED
    else a.angle + r.u * WANDER_STRENGTH)

/-- CARRYING_FOOD branch of `Ant.update` (sim.py lines 120-154): returns the
`on_trail` flag and the updated angle. -/
def carryDecision (t : Trig) (r : Draws) (a : Ant) (home : Grid)
    (colony : ℚ × ℚ) : Bool × ℚ :=
  let smell_ahead := get_pheromone_value (sensorAhead t a) home
  let home_smell_left := get_pheromone_value (sensorLeft t a) home
  let home_smell_right := get_pheromone_value (sensorRight t a) home
  let angle_to_colony := t.atan2 (colony.2 - a.pos.2) (colony.1 - a.pos.1)
  let angle_ahead_diff := |wrapDiff (a.angle - angle_to_colony)|
  let angle_left_diff := |wrapDiff (a.angle - ANT_SENSOR_ANGLE - angle_to_colony)|
  let angle_right_diff := |wrapDiff (a.angle + ANT_SENSOR_ANGLE - angle_to_colony)|
  let confidence_ahead :=
    smell_ahead + (mathPi - angle_ahead_diff) * NEST_GRAVITY_STRENGTH * 100
  let confidence_left :=
    home_smell_left + (mathPi - angle_left_diff) * NEST_GRAVITY_STRENGTH * 100
  let confidence_right :=
    home_smell_right + (mathPi - angle_right_diff) * NEST_GRAVITY_STRENGTH * 100
  (decide (10 < smell_ahead),
    if confidence_ahead > confidence_left ∧ confidence_ahead > confidence_right then
      a.angle + r.u * WANDER_STRENGTH
    else if confidence_left > confidence_right then a.angle - ANT_ROTATION_SPEED
    else if confidence_right > confidence_left then a.angle + ANT_ROTATION_SPEED
    else a.angle + wrapDiff (angle_to_colony - a.angle) * ANT_ROTATION_SPEED)

/-- Dispatch of the normal-branch sensing and decision on the task state. -/
def Ant.senseDecide (t : Trig) (r : Draws) (a : Ant) (home food : Grid)
    (colony : ℚ × ℚ) : Bool × ℚ :=
  match a.state with
  | TaskState.SEARCHING => searchDecision t r a food
  | TaskState.CARRYING_FOOD => carryDecision t r a home colony

/-- Patience bookkeeping of `Ant.update` (sim.py lines 99-100, 122-123,
156-157): decrement by 1 when on trail, else recover by 2 capped at
`MAX_PATIENCE`. -/
def patienceAfterDecision (onTrail : Bool) (p : ℤ) : ℤ :=
  if onTrail then p - 1 else min MAX_PATIENCE (p + 2)

-- BOUNDARIES AND INTERACTION (sim.py lines 168-201)

/-- `Ant.handle_boundaries` (sim.py lines 197-201). -/
def handle_boundaries (r : Draws) (a : Ant) : Ant :=
  if 20 < a.pos.1 ∧ a.pos.1 < (SCREEN_WIDTH : ℚ) - 20 ∧
      20 < a.pos.2 ∧ a.pos.2 < (SCREEN_HEIGHT : ℚ) - 20 then a
  else
    { a with
      pos := (max 20 (min ((SCREEN_WIDTH : ℚ) - 20) a.pos.1),
              max 20 (min ((SCREEN_HEIGHT : ℚ) - 20) a.pos.2))
      angle := a.angle + mathPi + r.j }

/-- The food-pickup loop of `Ant.interact_with_objects` (sim.py lines
170-178): scan in registration order, decrement the first source within the
pickup radius with positive amount, stop at the first match. -/
def pickupScan (p : ℚ × ℚ) : List Food → Bool × List Food
  | [] => (false, [])
  | f :: fs =>
    if distSq p f.pos < 10 ^ 2 ∧ 0 < f.amount then
      (true, { f with amount := f.amount - 1 } :: fs)
    else
      ((pickupScan p fs).1, f :: (pickupScan p fs).2)

/-- `Ant.interact_with_objects` (sim.py lines 168-195). -/
def Ant.interact_with_objects (a : Ant) (home food : Grid) (foods : List Food)
    (colony : ℚ × ℚ) : Ant × Grid × Grid × List Food :=
  match a.state with
  | TaskState.SEARCHING =>
    if (pickupScan a.pos foods).1 then
      ({ a with
          state := TaskState.CARRYING_FOOD
          angle := a.angle + mathPi
          patience := MAX_PATIENCE }, home, food, (pickupScan a.pos foods).2)
    else
      (a, depositGrid home a.pos (PHEROMONE_DEPOSIT_AMOUNT * 0.5), food,
        (pickupScan a.pos foods).2)
  | TaskState.CARRYING_FOOD =>
    if distSq a.pos colony < 20 ^ 2 then
      ({ a with
          state := TaskState.SEARCHING
          angle := a.angle + mathPi
          patience := MAX_PATIENCE }, home, food, foods)
    else
      (a, home, depositGrid food a.pos PHEROMONE_DEPOSIT_AMOUNT, foods)

/-- `Ant.update` (sim.py lines 76-166). -/
def Ant.update (t : Trig) (r : Draws) (a : Ant) (home food : Grid)
    (foods : List Food) (colony : ℚ × ℚ) : Ant × Grid × Grid × List Food :=
  if 0 < a.panic_timer then
    (handle_boundaries r
      { a with
        angle := a.angle + r.u * WANDER_STRENGTH * 2
        pos := stepPos t a.pos (a.angle + r.u * WANDER_STRENGTH * 2) a.speed
        panic_timer := a.panic_timer - 1 },
      home, food, foods)
  else
    let angle1 := (Ant.senseDecide t r a home food colony).2
    let p1 := patienceAfterDecision (Ant.senseDecide t r a home food colony).1
      a.patience
    Ant.interact_with_objects
      (handle_boundaries r
        { a with
          angle := angle1
          patience := if p1 ≤ 0 then MAX_PATIENCE else p1
          panic_timer := if p1 ≤ 0 then PANIC_DURATION else a.panic_timer
          pos := stepPos t a.pos angle1 a.speed })
      home food foods colony

-- SIMULATION-LEVEL STATE AND TICK (sim.py lines 224-276)

/-- `self.colony_pos = (SCREEN_WIDTH / 2, SCREEN_HEIGHT / 2)` (sim.py
line 238). -/
def colonyPos : ℚ × ℚ := ((SCREEN_WIDTH : ℚ) / 2, (SCREEN_HEIGHT : ℚ) / 2)

/-- `grid *= EVAPORATION_RATE` (sim.py lines 269-270). -/
def evapGrid (g : Grid) : Grid := fun y x => g y x * EVAPORATION_RATE

/-- Clamp an index into `[0, n - 1]` (boundary handling of the diffusion
convolution). -/
def clampIdx (n z : ℤ) : ℤ := max 0 (min (n - 1) z)

/-- Modelled from the spec: `scipy.ndimage.gaussian_filter(grid,
sigma=DIFFUSION_RATE)` (sim.py lines 273-274) is third-party library code
not present in the repository.  Per the spec (sections 4.1 and its glossary)
it is an isotropic Gaussian blur: a separable convolution whose
one-dimensional kernel `w` is non-negative and sums to 1 (scipy truncates the
Gaussian at radius 2 for `sigma = 0.5` and normalizes it), with a fixed
edge-handling rule, modelled here by clamping indices into the grid. -/
def diffuse (w : Fin 5 → ℚ) (g : Grid) : Grid := fun y x =>
  ∑ i : Fin 5, ∑ j : Fin 5,
    w i * w j * g (clampIdx SCREEN_HEIGHT (y + (i : ℤ) - 2))
      (clampIdx SCREEN_WIDTH (x + (j : ℤ) - 2))

structure SimState where
  home : Grid
  food : Grid
  foods : List Food
  ants : List Ant
  frame : ℕ

/-- The sequential per-tick pass over the agents (sim.py lines 265-266):
each agent reads the grids and food list as mutated by the agents before
it.  `r i` supplies the random draws of the `i`-th agent. -/
def antsPass (t : Trig) (r : ℕ → Draws) (colony : ℚ × ℚ) :
    List Ant → Grid → Grid → List Food → List Ant × Grid × Grid × List Food
  | [], h, f, fs => ([], h, f, fs)
  | a :: rest, h, f, fs =>
    let R := Ant.update t (r 0) a h f fs colony
    let Rs := antsPass t (fun i => r (i + 1)) colony rest R.2.1 R.2.2.1 R.2.2.2
    (R.1 :: Rs.1, Rs.2)

/-- `Simulation.update` (sim.py lines 264-276): all agents update, then
evaporation, then (every `DIFFUSION_INTERVAL` frames) diffusion, then frame
counter increment. -/
def simUpdate (t : Trig) (r : ℕ → Draws) (w : Fin 5 → ℚ) (s : SimState) :
    SimState :=
  let R := antsPass t r colonyPos s.ants s.home s.food s.foods
  let h2 := evapGrid R.2.1
  let f2 := evapGrid R.2.2.1
  { home := if s.frame % DIFFUSION_INTERVAL = 0 then diffuse w h2 else h2
    food := if s.frame % DIFFUSION_INTERVAL = 0 then diffuse w f2 else f2
    foods := R.2.2.2
    ants := R.1
    frame := s.frame + 1 }

/-- `n` ticks of the simulation; `R k` supplies the draws of tick `k`. -/
def simIter (t : Trig) (R : ℕ → ℕ → Draws) (w : Fin 5 → ℚ) :
    ℕ → SimState → SimState
  | 0, s => s
  | n + 1, s => simUpdate t (R n) w (simIter t R w n s)

-- SCENARIO APPARATUS for the forced-on-trail panic-cycle scenario

/-- A degenerate trig oracle (all functions zero): the scenario agent stands
still and senses at its own position. -/
def trigZero : Trig := { cos := fun _ => 0, sin := fun _ => 0, atan2 := fun _ _ => 0 }

/-- Zero random draws for the scenario. -/
def drawsZero : Draws := { u := 0, j := 0 }

/-- A synthetic constant high scent (20 > on-trail threshold 10) on every
cell: the scenario agent senses "on trail" every tick. -/
def gridTwenty : Grid := fun _ _ => 20

/-- The scenario agent at `(100, 100)` with heading 0, patience `p` and
panic timer `q`. -/
def baseAnt (p q : ℤ) : Ant :=
  { pos := (100, 100)
    angle := 0
    speed := ANT_SPEED
    state := TaskState.SEARCHING
    patience := p
    panic_timer := q }

/-- One scenario tick: the agent updates against the evolving home grid, the
constant food-scent grid `gridTwenty`, no food sources, and the colony. -/
def scenarioStep (s : Ant × Grid) : Ant × Grid :=
  let R := Ant.update trigZero drawsZero s.1 s.2 gridTwenty [] colonyPos
  (R.1, R.2.1)

/-- The scenario agent after `k` ticks, starting at a full patience reset. -/
def scenarioAnt (k : ℕ) : Ant :=
  (scenarioStep^[k] (baseAnt MAX_PATIENCE 0, zeroGrid)).1

/-- The scenario home grid after `k` ticks. -/
def scenarioHome (k : ℕ) : Grid :=
  (scenarioStep^[k] (baseAnt MAX_PATIENCE 0, zeroGrid)).2

-- SPEC-SIDE SAMPLING SEMANTICS (for claim C1)

/-- The sampling semantics in the spec's words (section 4.1): the cell value
at the point's integer-floored coordinates, 0 outside the grid bounds.  To be
compared with the source's `get_pheromone_value`, which truncates toward
zero via Python `int()`. -/
def sampleFloorSpec (pos : ℚ × ℚ) (grid : Grid) : ℚ :=
  if 0 ≤ ⌊pos.1⌋ ∧ ⌊pos.1⌋ < SCREEN_WIDTH ∧
      0 ≤ ⌊pos.2⌋ ∧ ⌊pos.2⌋ < SCREEN_HEIGHT then
    grid ⌊pos.2⌋ ⌊pos.1⌋
  else 0

theorem pyInt_cases (q : ℚ) (h : ¬ (-1 < q ∧ q < 0)) :
    pyInt q = ⌊q⌋ ∨ (pyInt q < 0 ∧ ⌊q⌋ < 0) := by
  rcases le_or_lt 0 q with hq | hq
  · left
    simp [pyInt, not_lt.mpr hq]
  · right
    have hle : q ≤ -1 := by
      by_contra hc
      exact h ⟨by linarith [not_le.mp hc], hq⟩
    have hceil : ⌈q⌉ ≤ -1 := by
      rw [Int.ceil_le]
      exact_mod_cast hle
    have hfloor : ⌊q⌋ ≤ ⌈q⌉ := Int.floor_le_ceil q
    constructor
    · simp only [pyInt, if_pos hq]
      omega
    · omega

-- THEOREMS FOR THE CLAIMS

/-- C1 (counterexample): the point `(-1/2, 5)` lies outside the grid bounds
(its x-coordinate is negative), yet depositing there is not a no-op and
sampling the same point afterwards returns the deposited value 250, not 0:
Python `int()` truncates `-1/2` to column 0. -/
theorem sample_outside_truncation_cex :
    ((-1/2 : ℚ) < 0) ∧
    get_pheromone_value ((-1/2 : ℚ), (5 : ℚ))
      (depositGrid zeroGrid ((-1/2 : ℚ), (5 : ℚ)) 250) = 250 ∧
    (250 : ℚ) ≠ 0 := by
  refine ⟨by norm_num, ?_, by norm_num⟩
  have hc : ⌈(-(1/2) : ℚ)⌉ = 0 := by norm_num
  norm_num [get_pheromone_value, depositGrid, pyInt, zeroGrid, SCREEN_WIDTH,
    SCREEN_HEIGHT, MAX_PHEROMONE, hc]

/-- C1 (amended): sampling returns the cell value at the point's
toward-zero-truncated coordinates and returns 0 when the truncated cell lies
outside the grid, and a deposit at such a point is a no-op, so depositing
and then sampling there yields 0.  For every point with no coordinate
strictly between -1 and 0, truncation agrees with flooring, so the claim's
floor-based reading holds there: sampling agrees with `sampleFloorSpec` and
out-of-bounds deposit-then-sample yields 0. -/
theorem sample_truncation_semantics (p : ℚ × ℚ) (g : Grid) (amt : ℚ)
    (h1 : ¬ (-1 < p.1 ∧ p.1 < 0)) (h2 : ¬ (-1 < p.2 ∧ p.2 < 0)) :
    get_pheromone_value p g = sampleFloorSpec p g ∧
    (¬ (0 ≤ ⌊p.1⌋ ∧ ⌊p.1⌋ < SCREEN_WIDTH ∧
        0 ≤ ⌊p.2⌋ ∧ ⌊p.2⌋ < SCREEN_HEIGHT) →
      depositGrid g p amt = g ∧
        get_pheromone_value p (depositGrid g p amt) = 0) := by
  rcases pyInt_cases p.1 h1 with hx | hx <;>
    rcases pyInt_cases p.2 h2 with hy | hy
  · constructor
    · simp only [get_pheromone_value, sampleFloorSpec, hx, hy]
    · intro hout
      have hdep : depositGrid g p amt = g := by
        simp only [depositGrid, hx, hy]
        rw [if_neg hout]
      refine ⟨hdep, ?_⟩
      rw [hdep]
      simp only [get_pheromone_value, hx, hy]
      rw [if_neg hout]
  · constructor
    · simp only [get_pheromone_value, sampleFloorSpec, hx]
      rw [if_neg (by omega), if_neg (by omega)]
    · intro _
      have hdep : depositGrid g p amt = g := by
        simp only [depositGrid]
        rw [if_neg (by omega)]
      refine ⟨hdep, ?_⟩
      rw [hdep]
      simp only [get_pheromone_value]
      rw [if_neg (by omega)]
  · constructor
    · simp only [get_pheromone_value, sampleFloorSpec, hy]
      rw [if_neg (by omega), if_neg (by omega)]
    · intro _
      have hdep : depositGrid g p amt = g := by
        simp only [depositGrid]
        rw [if_neg (by omega)]
      refine ⟨hdep, ?_⟩
      rw [hdep]
      simp only [get_pheromone_value]
      rw [if_neg (by omega)]
  · constructor
    · simp only [get_pheromone_value, sampleFloorSpec]
      rw [if_neg (by omega), if_neg (by omega)]
    · intro _
      have hdep : depositGrid g p amt = g := by
        simp only [depositGrid]
        rw [if_neg (by omega)]
      refine ⟨hdep, ?_⟩
      rw [hdep]
      simp only [get_pheromone_value]
      rw [if_neg (by omega)]

/-- C1 (witness): the amended sampling semantics evaluated at the in-bounds
point `(3/2, 5)` and at the out-of-bounds point `(-3/2, 5)`. -/
theorem sample_truncation_semantics_witness :
    (¬ ((-1 : ℚ) < (-3/2 : ℚ) ∧ (-3/2 : ℚ) < 0)) ∧
    depositGrid zeroGrid ((-3/2 : ℚ), (5 : ℚ)) 250 = zeroGrid ∧
    get_pheromone_value ((-3/2 : ℚ), (5 : ℚ))
      (depositGrid zeroGrid ((-3/2 : ℚ), (5 : ℚ)) 250) = 0 := by
  refine ⟨by norm_num, ?_⟩
  have h := sample_truncation_semantics ((-3/2 : ℚ), (5 : ℚ)) zeroGrid 250
    (by norm_num) (by norm_num)
  exact h.2 (by norm_num [SCREEN_WIDTH, SCREEN_HEIGHT])

/-- C9: applying the per-tick evaporation step `t` times multiplies every
cell's original value by `EVAPORATION_RATE ^ t`, exactly, over the
embedding's exact rational arithmetic. -/
theorem evaporation_power (g : Grid) (t : ℕ) (y x : ℤ) :
    (evapGrid^[t] g) y x = g y x * EVAPORATION_RATE ^ t := by
  induction t generalizing g with
  | zero => simp
  | succ n ih =>
    rw [Function.iterate_succ_apply, ih (evapGrid g)]
    simp only [evapGrid]
    ring

-- PYTHON FLOAT MODULO LEMMAS (for claim C5)

theorem pymod_eq_fract (a b : ℚ) (hb : b ≠ 0) :
    pymod a b = b * Int.fract (a / b) := by
  unfold pymod
  rw [Int.fract]
  field_simp

theorem pymod_nonneg (a b : ℚ) (hb : 0 < b) : 0 ≤ pymod a b := by
  rw [pymod_eq_fract a b hb.ne']
  exact mul_nonneg hb.le (Int.fract_nonneg _)

theorem pymod_lt (a b : ℚ) (hb : 0 < b) : pymod a b < b := by
  rw [pymod_eq_fract a b hb.ne']
  calc b * Int.fract (a / b) < b * 1 :=
        (mul_lt_mul_left hb).mpr (Int.fract_lt_one _)
    _ = b := mul_one b

theorem pymod_add_int_mul (a b : ℚ) (k : ℤ) (hb : 0 < b) :
    pymod (a + b * k) b = pymod a b := by
  rw [pymod_eq_fract _ b hb.ne', pymod_eq_fract a b hb.ne']
  congr 1
  rw [show (a + b * k) / b = a / b + k by
    field_simp
    ring]
  exact Int.fract_add_int _ _

/-- C5 (counterexample): the stored heading is not kept in a canonical
range.  The heading `7/2` is a legal initial draw from `uniform(0, 2π)` for
an agent created at the colony center, and it already lies outside
`(-π, π]`; after one food pickup at that position the stored heading becomes
`7/2 + π`, which exceeds `2π`, hence lies outside every canonical range of
the form `(-π, π]` or `[0, 2π)`. -/
theorem heading_unnormalized_cex :
    (Ant.mkInit ((SCREEN_WIDTH : ℚ) / 2) ((SCREEN_HEIGHT : ℚ) / 2)
        (7/2)).angle = 7/2 ∧
    mathPi < 7/2 ∧
    (Ant.interact_with_objects
        (Ant.mkInit ((SCREEN_WIDTH : ℚ) / 2) ((SCREEN_HEIGHT : ℚ) / 2) (7/2))
        zeroGrid zeroGrid [{ pos := colonyPos, amount := 3 }]
        colonyPos).1.angle = 7/2 + mathPi ∧
    2 * mathPi < 7/2 + mathPi := by
  refine ⟨rfl, by norm_num [mathPi], ?_, by norm_num [mathPi]⟩
  simp [Ant.interact_with_objects, Ant.mkInit, pickupScan, distSq, colonyPos,
    SCREEN_WIDTH, SCREEN_HEIGHT]

/-- C5 (amended): the code never normalizes the stored heading (see the
counterexample: it can exceed any canonical range and grows with every
pickup, delivery or boundary bounce).  What the code does instead, and what
keeps the unbounded drift harmless in exact arithmetic, is wrap every angle
difference it consumes through `((d + π) mod 2π) - π`: that wrapped value is
invariant under shifting the heading by any multiple of `2π` and always lies
in the canonical range `[-π, π)`. -/
theorem wrapped_angle_difference_canonical (d : ℚ) (k : ℤ) :
    wrapDiff (d + 2 * mathPi * k) = wrapDiff d ∧
    -mathPi ≤ wrapDiff d ∧ wrapDiff d < mathPi := by
  have hb : (0 : ℚ) < 2 * mathPi := by norm_num [mathPi]
  refine ⟨?_, ?_, ?_⟩
  · unfold wrapDiff
    rw [show d + 2 * mathPi * k + mathPi = d + mathPi + 2 * mathPi * k by ring,
      pymod_add_int_mul (d + mathPi) (2 * mathPi) k hb]
  · unfold wrapDiff
    linarith [pymod_nonneg (d + mathPi) (2 * mathPi) hb]
  · unfold wrapDiff
    linarith [pymod_lt (d + mathPi) (2 * mathPi) hb]

-- FRAME LEMMAS FOR BOUNDARY HANDLING AND INTERACTION

theorem handle_boundaries_fields (r : Draws) (a : Ant) :
    (handle_boundaries r a).speed = a.speed ∧
    (handle_boundaries r a).state = a.state ∧
    (handle_boundaries r a).patience = a.patience ∧
    (handle_boundaries r a).panic_timer = a.panic_timer := by
  unfold handle_boundaries
  split_ifs <;> exact ⟨rfl, rfl, rfl, rfl⟩

theorem handle_boundaries_pos (r : Draws) (b : Ant) :
    20 ≤ (handle_boundaries r b).pos.1 ∧
    (handle_boundaries r b).pos.1 ≤ (SCREEN_WIDTH : ℚ) - 20 ∧
    20 ≤ (handle_boundaries r b).pos.2 ∧
    (handle_boundaries r b).pos.2 ≤ (SCREEN_HEIGHT : ℚ) - 20 := by
  unfold handle_boundaries
  split_ifs with h
  · exact ⟨h.1.le, h.2.1.le, h.2.2.1.le, h.2.2.2.le⟩
  · exact ⟨le_max_left _ _,
      max_le (by norm_num [SCREEN_WIDTH]) (min_le_left _ _),
      le_max_left _ _,
      max_le (by norm_num [SCREEN_HEIGHT]) (min_le_left _ _)⟩

theorem interact_pos_panic (a : Ant) (home food : Grid) (foods : List Food)
    (colony : ℚ × ℚ) :
    (Ant.interact_with_objects a home food foods colony).1.pos = a.pos ∧
    (Ant.interact_with_objects a home food foods colony).1.panic_timer
      = a.panic_timer ∧
    ((Ant.interact_with_objects a home food foods colony).1.patience
        = a.patience ∨
      (Ant.interact_with_objects a home food foods colony).1.patience
        = MAX_PATIENCE) := by
  obtain ⟨pos, ang, sp, st, pat, pt⟩ := a
  cases st <;> simp only [Ant.interact_with_objects] <;> split_ifs <;> simp

theorem update_pos_from_boundaries (t : Trig) (r : Draws) (a : Ant)
    (home food : Grid) (foods : List Food) (colony : ℚ × ℚ) :
    ∃ b : Ant, (Ant.update t r a home food foods colony).1.pos
      = (handle_boundaries r b).pos := by
  simp only [Ant.update]
  split_ifs
  · exact ⟨_, rfl⟩
  all_goals exact ⟨_, (interact_pos_panic _ home food foods colony).1⟩

/-- C10: after every agent update, in both the panic and the normal branch,
the agent's position lies in the closed inset rectangle
`[20, SCREEN_WIDTH - 20] × [20, SCREEN_HEIGHT - 20]`; moreover the boundary
handler also fires — clamping the position and reversing the heading by `π`
plus the random jitter — when a coordinate lands exactly on the margin,
because the inside test uses strict inequalities. -/
theorem position_inset_clamped (t : Trig) (r : Draws) (a : Ant)
    (home food : Grid) (foods : List Food) (colony : ℚ × ℚ) :
    (20 ≤ (Ant.update t r a home food foods colony).1.pos.1 ∧
      (Ant.update t r a home food foods colony).1.pos.1
        ≤ (SCREEN_WIDTH : ℚ) - 20 ∧
      20 ≤ (Ant.update t r a home food foods colony).1.pos.2 ∧
      (Ant.update t r a home food foods colony).1.pos.2
        ≤ (SCREEN_HEIGHT : ℚ) - 20) ∧
    (a.pos.1 = 20 ∨ a.pos.1 = (SCREEN_WIDTH : ℚ) - 20 ∨
        a.pos.2 = 20 ∨ a.pos.2 = (SCREEN_HEIGHT : ℚ) - 20 →
      (handle_boundaries r a).angle = a.angle + mathPi + r.j ∧
      (handle_boundaries r a).pos =
        (max 20 (min ((SCREEN_WIDTH : ℚ) - 20) a.pos.1),
          max 20 (min ((SCREEN_HEIGHT : ℚ) - 20) a.pos.2))) := by
  constructor
  · obtain ⟨b, hb⟩ := update_pos_from_boundaries t r a home food foods colony
    rw [hb]
    exact handle_boundaries_pos r b
  · intro h
    have hfalse : ¬ (20 < a.pos.1 ∧ a.pos.1 < (SCREEN_WIDTH : ℚ) - 20 ∧
        20 < a.pos.2 ∧ a.pos.2 < (SCREEN_HEIGHT : ℚ) - 20) := by
      rcases h with h | h | h | h <;> (rintro ⟨h1, h2, h3, h4⟩; linarith)
    unfold handle_boundaries
    rw [if_neg hfalse]
    exact ⟨rfl, rfl⟩

/-- C10 (witness): the theorem evaluated for an agent standing exactly on
the left margin `x = 20`. -/
theorem position_inset_clamped_witness :
    (handle_boundaries drawsZero (Ant.mkInit 20 100 0)).angle
      = (Ant.mkInit 20 100 0).angle + mathPi + drawsZero.j ∧
    20 ≤ (Ant.update trigZero drawsZero (Ant.mkInit 20 100 0)
      zeroGrid zeroGrid [] colonyPos).1.pos.1 := by
  have h := position_inset_clamped trigZero drawsZero (Ant.mkInit 20 100 0)
    zeroGrid zeroGrid [] colonyPos
  exact ⟨(h.2 (Or.inl rfl)).1, h.1.1⟩

-- PATIENCE BOOKKEEPING (claim C2)

theorem patienceAfterDecision_le (b : Bool) (p : ℤ) (hp : p ≤ MAX_PATIENCE) :
    patienceAfterDecision b p ≤ MAX_PATIENCE := by
  cases b <;> simp only [patienceAfterDecision, MAX_PATIENCE] at * <;> omega

/-- C2: with the patience counter in `[0, MAX_PATIENCE]` before a tick, it
is again in `[0, MAX_PATIENCE]` after the tick; and on a tick in which the
post-decision patience reaches `≤ 0` (normal branch, i.e. the panic timer
was not positive), the updated agent leaves the tick with patience reset to
exactly `MAX_PATIENCE` and panic timer set to exactly `PANIC_DURATION`. -/
theorem patience_bounds_and_reset (t : Trig) (r : Draws) (a : Ant)
    (home food : Grid) (foods : List Food) (colony : ℚ × ℚ)
    (hlo : 0 ≤ a.patience) (hhi : a.patience ≤ MAX_PATIENCE) :
    (0 ≤ (Ant.update t r a home food foods colony).1.patience ∧
      (Ant.update t r a home food foods colony).1.patience ≤ MAX_PATIENCE) ∧
    (a.panic_timer ≤ 0 →
      patienceAfterDecision (Ant.senseDecide t r a home food colony).1
          a.patience ≤ 0 →
      (Ant.update t r a home food foods colony).1.patience = MAX_PATIENCE ∧
      (Ant.update t r a home food foods colony).1.panic_timer
        = PANIC_DURATION) := by
  simp only [Ant.update]
  split_ifs with hp hr
  · -- panic branch: patience untouched
    have hfields := handle_boundaries_fields r
      { a with
        angle := a.angle + r.u * WANDER_STRENGTH * 2
        pos := stepPos t a.pos (a.angle + r.u * WANDER_STRENGTH * 2) a.speed
        panic_timer := a.panic_timer - 1 }
    refine ⟨⟨?_, ?_⟩, fun hnp _ => absurd hp (by omega)⟩
    · rw [hfields.2.2.1]
      exact hlo
    · rw [hfields.2.2.1]
      exact hhi
  · -- normal branch, patience exhausted: reset fires
    have hint := interact_pos_panic
      (handle_boundaries r
        { a with
          angle := (Ant.senseDecide t r a home food colony).2
          patience := MAX_PATIENCE
          panic_timer := PANIC_DURATION
          pos := stepPos t a.pos (Ant.senseDecide t r a home food colony).2
            a.speed })
      home food foods colony
    have hfields := handle_boundaries_fields r
      { a with
        angle := (Ant.senseDecide t r a home food colony).2
        patience := MAX_PATIENCE
        panic_timer := PANIC_DURATION
        pos := stepPos t a.pos (Ant.senseDecide t r a home food colony).2
          a.speed }
    have hpat : (Ant.interact_with_objects
        (handle_boundaries r
          { a with
            angle := (Ant.senseDecide t r a home food colony).2
            patience := MAX_PATIENCE
            panic_timer := PANIC_DURATION
            pos := stepPos t a.pos (Ant.senseDecide t r a home food colony).2
              a.speed })
        home food foods colony).1.patience = MAX_PATIENCE := by
      rcases hint.2.2 with h | h
      · rw [h, hfields.2.2.1]
      · exact h
    have hpanic : (Ant.interact_with_objects
        (handle_boundaries r
          { a with
            angle := (Ant.senseDecide t r a home food colony).2
            patience := MAX_PATIENCE
            panic_timer := PANIC_DURATION
            pos := stepPos t a.pos (Ant.senseDecide t r a home food colony).2
              a.speed })
        home food foods colony).1.panic_timer = PANIC_DURATION := by
      rw [hint.2.1, hfields.2.2.2]
    refine ⟨⟨?_, ?_⟩, fun _ _ => ⟨hpat, hpanic⟩⟩
    · rw [hpat]
      norm_num [MAX_PATIENCE]
    · rw [hpat]
  · -- normal branch, patience positive after the decision
    have hint := interact_pos_panic
      (handle_boundaries r
        { a with
          angle := (Ant.senseDecide t r a home food colony).2
          patience := patienceAfterDecision
            (Ant.senseDecide t r a home food colony).1 a.patience
          panic_timer := a.panic_timer
          pos := stepPos t a.pos (Ant.senseDecide t r a home food colony).2
            a.speed })
      home food foods colony
    have hfields := handle_boundaries_fields r
      { a with
        angle := (Ant.senseDecide t r a home food colony).2
        patience := patienceAfterDecision
          (Ant.senseDecide t r a home food colony).1 a.patience
        panic_timer := a.panic_timer
        pos := stepPos t a.pos (Ant.senseDecide t r a home food colony).2
          a.speed }
    refine ⟨⟨?_, ?_⟩, fun _ hps => absurd hps hr⟩
    · rcases hint.2.2 with h | h
      · rw [h, hfields.2.2.1]
        show 0 ≤ patienceAfterDecision
          (Ant.senseDecide t r a home food colony).1 a.patience
        simp only [not_le] at hr
        omega
      · rw [h]
        norm_num [MAX_PATIENCE]
    · rcases hint.2.2 with h | h
      · rw [h, hfields.2.2.1]
        exact patienceAfterDecision_le _ _ hhi
      · rw [h]

/-- C2 (witness): the bounds and the reset evaluated for an agent with
patience 0 standing on a synthetic strong food-scent cell, so the decision
phase drives patience to `-1 ≤ 0` and the reset fires. -/
theorem patience_bounds_and_reset_witness :
    (Ant.update trigZero drawsZero (baseAnt 0 0) zeroGrid gridTwenty []
      colonyPos).1.patience = MAX_PATIENCE ∧
    (Ant.update trigZero drawsZero (baseAnt 0 0) zeroGrid gridTwenty []
      colonyPos).1.panic_timer = PANIC_DURATION := by
  have hsd : (Ant.senseDecide trigZero drawsZero (baseAnt 0 0) zeroGrid
      gridTwenty colonyPos).1 = true := by
    norm_num [Ant.senseDecide, baseAnt, searchDecision, get_pheromone_value,
      sensorAhead, sensorLeft, sensorRight, trigZero, gridTwenty, pyInt,
      ANT_SENSOR_DISTANCE, SCREEN_WIDTH, SCREEN_HEIGHT]
  have h := patience_bounds_and_reset trigZero drawsZero (baseAnt 0 0)
    zeroGrid gridTwenty [] colonyPos (by norm_num [baseAnt])
    (by norm_num [baseAnt, MAX_PATIENCE])
  exact h.2 (by norm_num [baseAnt])
    (by rw [hsd]; norm_num [patienceAfterDecision, baseAnt])

-- FOOD PICKUP (claim C3)

theorem pickupScan_first (p : ℚ × ℚ) (pre post : List Food) (f : Food)
    (hpre : ∀ g ∈ pre, ¬ (distSq p g.pos < 10 ^ 2 ∧ 0 < g.amount))
    (hf : distSq p f.pos < 10 ^ 2) (ha : 0 < f.amount) :
    pickupScan p (pre ++ f :: post) =
      (true, pre ++ { f with amount := f.amount - 1 } :: post) := by
  induction pre with
  | nil =>
    simp only [List.nil_append, pickupScan]
    rw [if_pos ⟨hf, ha⟩]
  | cons g gs ih =>
    have hg := hpre g (List.mem_cons_self g gs)
    simp only [List.cons_append, pickupScan, List.append_eq]
    rw [if_neg hg, ih fun x hx => hpre x (List.mem_cons_of_mem g hx)]

/-- C3: for a SEARCHING agent within the pickup radius of a food source with
positive amount — the first such source in registration order — the
interaction step decrements exactly that source's amount by 1 (leaving every
other source and its own position untouched, and never below 0), switches
the agent to CARRYING_FOOD, adds exactly `π` to its heading, resets its
patience to `MAX_PATIENCE`, stops scanning at the first match, and deposits
into neither pheromone grid. -/
theorem searching_pickup_first_match (a : Ant) (home food : Grid)
    (pre post : List Food) (f : Food) (colony : ℚ × ℚ)
    (hs : a.state = TaskState.SEARCHING)
    (hpre : ∀ g ∈ pre, ¬ (distSq a.pos g.pos < 10 ^ 2 ∧ 0 < g.amount))
    (hf : distSq a.pos f.pos < 10 ^ 2) (ha : 0 < f.amount) :
    Ant.interact_with_objects a home food (pre ++ f :: post) colony =
      ({ a with
          state := TaskState.CARRYING_FOOD
          angle := a.angle + mathPi
          patience := MAX_PATIENCE },
        home, food, pre ++ { f with amount := f.amount - 1 } :: post) ∧
    0 ≤ f.amount - 1 := by
  refine ⟨?_, by omega⟩
  have hscan := pickupScan_first a.pos pre post f hpre hf ha
  obtain ⟨pos, ang, sp, st, pat, pt⟩ := a
  subst hs
  simp only [Ant.interact_with_objects, hscan]
  simp

/-- C3 (witness): the pickup evaluated for a concrete agent standing on the
second registered food source, the first being out of range. -/
theorem searching_pickup_first_match_witness :
    Ant.interact_with_objects (baseAnt 7 0) zeroGrid zeroGrid
        [{ pos := (600, 600), amount := 5 }, { pos := (100, 100), amount := 2 }]
        colonyPos =
      ({ baseAnt 7 0 with
          state := TaskState.CARRYING_FOOD
          angle := (baseAnt 7 0).angle + mathPi
          patience := MAX_PATIENCE },
        zeroGrid, zeroGrid,
        [{ pos := (600, 600), amount := 5 }, { pos := (100, 100), amount := 1 }]) ∧
    (0 : ℤ) ≤ 2 - 1 := by
  have h := searching_pickup_first_match (baseAnt 7 0) zeroGrid zeroGrid
    [{ pos := (600, 600), amount := 5 }] [] { pos := (100, 100), amount := 2 }
    colonyPos rfl
    (by
      intro g hg
      simp only [List.mem_singleton] at hg
      subst hg
      norm_num [distSq, baseAnt])
    (by norm_num [distSq, baseAnt]) (by norm_num)
  simpa using h

-- FOOD DELIVERY (claim C7)

/-- C7: a CARRYING_FOOD agent within the colony capture radius after moving:
the interaction step switches it to SEARCHING, adds exactly `π` to its
heading, resets its patience to `MAX_PATIENCE`, and leaves both pheromone
grids and every food source untouched (no deposit that tick). -/
theorem carrying_delivery_frame (a : Ant) (home food : Grid)
    (foods : List Food) (colony : ℚ × ℚ)
    (hs : a.state = TaskState.CARRYING_FOOD)
    (hd : distSq a.pos colony < 20 ^ 2) :
    Ant.interact_with_objects a home food foods colony =
      ({ a with
          state := TaskState.SEARCHING
          angle := a.angle + mathPi
          patience := MAX_PATIENCE },
        home, food, foods) := by
  obtain ⟨pos, ang, sp, st, pat, pt⟩ := a
  subst hs
  simp only [Ant.interact_with_objects]
  rw [if_pos hd]

/-- C7 (witness): the delivery evaluated for a concrete agent standing 10
units from the colony center. -/
theorem carrying_delivery_frame_witness :
    Ant.interact_with_objects
        { baseAnt 7 0 with
            pos := (colonyPos.1 - 10, colonyPos.2)
            state := TaskState.CARRYING_FOOD }
        zeroGrid zeroGrid [] colonyPos =
      ({ baseAnt 7 0 with
          pos := (colonyPos.1 - 10, colonyPos.2)
          state := TaskState.SEARCHING
          angle := (baseAnt 7 0).angle + mathPi
          patience := MAX_PATIENCE },
        zeroGrid, zeroGrid, []) := by
  have h := carrying_delivery_frame
    { baseAnt 7 0 with
        pos := (colonyPos.1 - 10, colonyPos.2)
        state := TaskState.CARRYING_FOOD }
    zeroGrid zeroGrid [] colonyPos rfl (by norm_num [distSq, baseAnt, colonyPos])
  simpa using h

-- SEARCHING DECISION CASES (claim C6)

/-- C6: in the SEARCHING comparison of the ahead/left/right food-scent
samples: if ahead is strictly the largest, the heading gets a small random
wander; if left is strictly largest, the heading rotates left by the fixed
rotation step; if right is strictly largest, it rotates right; and on a tie
among all three samples (including all-zero) the heading gets the same small
random wander as the ahead-wins case. -/
theorem searching_decision_cases (t : Trig) (r : Draws) (a : Ant) (g : Grid)
    (ahead lft rgt : ℚ)
    (hA : ahead = get_pheromone_value (sensorAhead t a) g)
    (hL : lft = get_pheromone_value (sensorLeft t a) g)
    (hR : rgt = get_pheromone_value (sensorRight t a) g) :
    (ahead > lft ∧ ahead > rgt →
      (searchDecision t r a g).2 = a.angle + r.u * WANDER_STRENGTH) ∧
    (lft > ahead ∧ lft > rgt →
      (searchDecision t r a g).2 = a.angle - ANT_ROTATION_SPEED) ∧
    (rgt > ahead ∧ rgt > lft →
      (searchDecision t r a g).2 = a.angle + ANT_ROTATION_SPEED) ∧
    (ahead = lft ∧ lft = rgt →
      (searchDecision t r a g).2 = a.angle + r.u * WANDER_STRENGTH) := by
  have key : (searchDecision t r a g).2 =
      if ahead > lft ∧ ahead > rgt then a.angle + r.u * WANDER_STRENGTH
      else if lft > rgt then a.angle - ANT_ROTATION_SPEED
      else if rgt > lft then a.angle + ANT_ROTATION_SPEED
      else a.angle + r.u * WANDER_STRENGTH := by
    simp only [searchDecision, ← hA, ← hL, ← hR]
  refine ⟨fun h => ?_, fun h => ?_, fun h => ?_, fun h => ?_⟩
  · rw [key, if_pos h]
  · rw [key, if_neg fun hc => lt_asymm h.1 hc.1, if_pos h.2]
  · rw [key, if_neg fun hc => lt_asymm h.1 hc.2,
      if_neg fun hc => lt_asymm h.2 hc, if_pos h.2]
  · obtain ⟨h1, h2⟩ := h
    rw [key, if_neg fun hc => absurd hc.1 (by rw [h1]; exact lt_irrefl lft),
      if_neg (by rw [h2]; exact lt_irrefl rgt),
      if_neg (by rw [h2]; exact lt_irrefl rgt)]

/-- C6 (witness): the tie case evaluated on the constant scent grid, where
all three samples are 20, and the ahead-wins case on a grid with the
strongest scent ahead. -/
theorem searching_decision_cases_witness :
    (searchDecision trigZero drawsZero (baseAnt 300 0) gridTwenty).2
      = (baseAnt 300 0).angle + drawsZero.u * WANDER_STRENGTH := by
  have h := searching_decision_cases trigZero drawsZero (baseAnt 300 0)
    gridTwenty
    (get_pheromone_value (sensorAhead trigZero (baseAnt 300 0)) gridTwenty)
    (get_pheromone_value (sensorLeft trigZero (baseAnt 300 0)) gridTwenty)
    (get_pheromone_value (sensorRight trigZero (baseAnt 300 0)) gridTwenty)
    rfl rfl rfl
  refine h.2.2.2 ⟨?_, ?_⟩ <;>
    norm_num [get_pheromone_value, sensorAhead, sensorLeft, sensorRight,
      trigZero, baseAnt, gridTwenty, pyInt, ANT_SENSOR_DISTANCE]

-- PHEROMONE FIELD BOUNDS (claim C4)

/-- Every in-bounds cell of the grid lies in `[0, MAX_PHEROMONE]`. -/
def GridBounded (g : Grid) : Prop :=
  ∀ y x : ℤ, 0 ≤ y → y < SCREEN_HEIGHT → 0 ≤ x → x < SCREEN_WIDTH →
    0 ≤ g y x ∧ g y x ≤ MAX_PHEROMONE

theorem zeroGrid_bounded : GridBounded zeroGrid := by
  intro y x _ _ _ _
  norm_num [zeroGrid, MAX_PHEROMONE]

theorem depositGrid_bounded (g : Grid) (p : ℚ × ℚ) (amt : ℚ)
    (hg : GridBounded g) (hamt : 0 ≤ amt) :
    GridBounded (depositGrid g p amt) := by
  unfold depositGrid
  split_ifs with h
  · intro y x hy1 hy2 hx1 hx2
    dsimp only
    split_ifs with hyx
    · obtain ⟨hcell0, _⟩ := hg (pyInt p.2) (pyInt p.1) h.2.2.1 h.2.2.2 h.1 h.2.1
      exact ⟨le_min (by norm_num [MAX_PHEROMONE]) (add_nonneg hcell0 hamt),
        min_le_left _ _⟩
    · exact hg y x hy1 hy2 hx1 hx2
  · exact hg

theorem evapGrid_bounded (g : Grid) (hg : GridBounded g) :
    GridBounded (evapGrid g) := by
  intro y x hy1 hy2 hx1 hx2
  obtain ⟨h0, h1⟩ := hg y x hy1 hy2 hx1 hx2
  unfold evapGrid
  constructor
  · exact mul_nonneg h0 (by norm_num [EVAPORATION_RATE])
  · have hr1 : EVAPORATION_RATE ≤ 1 := by norm_num [EVAPORATION_RATE]
    nlinarith [h0, h1, hr1]

theorem clampIdx_bounds (n z : ℤ) (hn : 0 < n) :
    0 ≤ clampIdx n z ∧ clampIdx n z < n := by
  unfold clampIdx
  omega

theorem diffuse_bounded (w : Fin 5 → ℚ) (hw0 : ∀ i, 0 ≤ w i)
    (hw1 : ∑ i, w i = 1) (g : Grid) (hg : GridBounded g) :
    GridBounded (diffuse w g) := by
  have hM : ∀ c : ℚ, ∑ j : Fin 5, w j * c = c := by
    intro c
    rw [← Finset.sum_mul, hw1, one_mul]
  intro y x hy1 hy2 hx1 hx2
  have hH : (0 : ℤ) < SCREEN_HEIGHT := by norm_num [SCREEN_HEIGHT]
  have hW : (0 : ℤ) < SCREEN_WIDTH := by norm_num [SCREEN_WIDTH]
  unfold diffuse
  constructor
  · apply Finset.sum_nonneg
    intro i _
    apply Finset.sum_nonneg
    intro j _
    have hcell := hg (clampIdx SCREEN_HEIGHT (y + (i : ℤ) - 2))
      (clampIdx SCREEN_WIDTH (x + (j : ℤ) - 2))
      (clampIdx_bounds _ _ hH).1 (clampIdx_bounds _ _ hH).2
      (clampIdx_bounds _ _ hW).1 (clampIdx_bounds _ _ hW).2
    exact mul_nonneg (mul_nonneg (hw0 i) (hw0 j)) hcell.1
  · calc ∑ i : Fin 5, ∑ j : Fin 5,
        w i * w j * g (clampIdx SCREEN_HEIGHT (y + (i : ℤ) - 2))
          (clampIdx SCREEN_WIDTH (x + (j : ℤ) - 2))
        ≤ ∑ i : Fin 5, ∑ j : Fin 5, w i * w j * MAX_PHEROMONE := by
          apply Finset.sum_le_sum
          intro i _
          apply Finset.sum_le_sum
          intro j _
          have hcell := hg (clampIdx SCREEN_HEIGHT (y + (i : ℤ) - 2))
            (clampIdx SCREEN_WIDTH (x + (j : ℤ) - 2))
            (clampIdx_bounds _ _ hH).1 (clampIdx_bounds _ _ hH).2
            (clampIdx_bounds _ _ hW).1 (clampIdx_bounds _ _ hW).2
          exact mul_le_mul_of_nonneg_left hcell.2
            (mul_nonneg (hw0 i) (hw0 j))
      _ = ∑ i : Fin 5, w i * MAX_PHEROMONE := by
          apply Finset.sum_congr rfl
          intro i _
          simp only [mul_assoc]
          rw [← Finset.mul_sum, hM]
      _ = MAX_PHEROMONE := hM _

theorem interact_grids_bounded (a : Ant) (home food : Grid)
    (foods : List Food) (colony : ℚ × ℚ)
    (hh : GridBounded home) (hf : GridBounded food) :
    GridBounded (Ant.interact_with_objects a home food foods colony).2.1 ∧
    GridBounded (Ant.interact_with_objects a home food foods colony).2.2.1 := by
  obtain ⟨pos, ang, sp, st, pat, pt⟩ := a
  cases st <;> simp only [Ant.interact_with_objects] <;> split_ifs <;>
    refine ⟨?_, ?_⟩ <;>
    first
      | exact hh
      | exact hf
      | exact depositGrid_bounded _ _ _ hh
          (by norm_num [PHEROMONE_DEPOSIT_AMOUNT])
      | exact depositGrid_bounded _ _ _ hf
          (by norm_num [PHEROMONE_DEPOSIT_AMOUNT])

theorem update_grids_bounded (t : Trig) (r : Draws) (a : Ant)
    (home food : Grid) (foods : List Food) (colony : ℚ × ℚ)
    (hh : GridBounded home) (hf : GridBounded food) :
    GridBounded (Ant.update t r a home food foods colony).2.1 ∧
    GridBounded (Ant.update t r a home food foods colony).2.2.1 := by
  simp only [Ant.update]
  split_ifs
  · exact ⟨hh, hf⟩
  all_goals exact interact_grids_bounded _ home food foods colony hh hf

theorem antsPass_grids_bounded (t : Trig) (r : ℕ → Draws) (colony : ℚ × ℚ)
    (ants : List Ant) (h f : Grid) (fs : List Food)
    (hh : GridBounded h) (hf : GridBounded f) :
    GridBounded (antsPass t r colony ants h f fs).2.1 ∧
    GridBounded (antsPass t r colony ants h f fs).2.2.1 := by
  induction ants generalizing r h f fs with
  | nil => exact ⟨hh, hf⟩
  | cons a rest ih =>
    simp only [antsPass]
    have hu := update_grids_bounded t (r 0) a h f fs colony hh hf
    exact ih (fun i => r (i + 1)) _ _ _ hu.1 hu.2

theorem simUpdate_bounded (t : Trig) (r : ℕ → Draws) (w : Fin 5 → ℚ)
    (hw0 : ∀ i, 0 ≤ w i) (hw1 : ∑ i, w i = 1) (s : SimState)
    (hh : GridBounded s.home) (hf : GridBounded s.food) :
    GridBounded (simUpdate t r w s).home ∧
    GridBounded (simUpdate t r w s).food := by
  have hp := antsPass_grids_bounded t r colonyPos s.ants s.home s.food
    s.foods hh hf
  simp only [simUpdate]
  split_ifs with hfr
  · exact ⟨diffuse_bounded w hw0 hw1 _ (evapGrid_bounded _ hp.1),
      diffuse_bounded w hw0 hw1 _ (evapGrid_bounded _ hp.2)⟩
  · exact ⟨evapGrid_bounded _ hp.1, evapGrid_bounded _ hp.2⟩

/-- C4: starting from any simulation state whose two pheromone grids have
every in-bounds cell in `[0, MAX_PHEROMONE]` (in particular the all-zero
initial grids), after any number of ticks — agent deposits saturating at
`MAX_PHEROMONE`, per-tick evaporation, and periodic normalized Gaussian
diffusion — every in-bounds cell of both grids is still in
`[0, MAX_PHEROMONE]`. -/
theorem pheromone_bounds_invariant (t : Trig) (R : ℕ → ℕ → Draws)
    (w : Fin 5 → ℚ) (hw0 : ∀ i, 0 ≤ w i) (hw1 : ∑ i, w i = 1)
    (s : SimState) (hh : GridBounded s.home) (hf : GridBounded s.food)
    (n : ℕ) :
    GridBounded (simIter t R w n s).home ∧
    GridBounded (simIter t R w n s).food := by
  induction n with
  | zero => exact ⟨hh, hf⟩
  | succ m ih =>
    simp only [simIter]
    exact simUpdate_bounded t (R m) w hw0 hw1 _ ih.1 ih.2

/-- C4 (witness): the invariant evaluated for one tick of a one-agent
simulation starting from the all-zero grids, with the point-mass diffusion
kernel. -/
theorem pheromone_bounds_invariant_witness :
    GridBounded (simIter trigZero (fun _ _ => drawsZero)
      ![0, 0, 1, 0, 0] 1
      { home := zeroGrid, food := zeroGrid, foods := [],
        ants := [baseAnt 300 0], frame := 0 }).home ∧
    GridBounded (simIter trigZero (fun _ _ => drawsZero)
      ![0, 0, 1, 0, 0] 1
      { home := zeroGrid, food := zeroGrid, foods := [],
        ants := [baseAnt 300 0], frame := 0 }).food := by
  apply pheromone_bounds_invariant
  · intro i
    fin_cases i <;> norm_num
  · rw [Fin.sum_univ_five]
    norm_num
  · exact zeroGrid_bounded
  · exact zeroGrid_bounded

-- PANIC CYCLE SCENARIO (claim C8)

theorem sample_gridTwenty :
    get_pheromone_value ((100 : ℚ), (100 : ℚ)) gridTwenty = 20 := by
  norm_num [get_pheromone_value, pyInt, gridTwenty, SCREEN_WIDTH,
    SCREEN_HEIGHT]

theorem scenario_searchDecision (a : Ant) (hpos : a.pos = (100, 100)) :
    searchDecision trigZero drawsZero a gridTwenty = (true, a.angle) := by
  have hA : sensorAhead trigZero a = ((100 : ℚ), (100 : ℚ)) := by
    simp [sensorAhead, trigZero, hpos]
  have hL : sensorLeft trigZero a = ((100 : ℚ), (100 : ℚ)) := by
    simp [sensorLeft, trigZero, hpos]
  have hR : sensorRight trigZero a = ((100 : ℚ), (100 : ℚ)) := by
    simp [sensorRight, trigZero, hpos]
  norm_num [searchDecision, hA, hL, hR, sample_gridTwenty, drawsZero]

theorem scenario_senseDecide (p q : ℤ) (h : Grid) :
    Ant.senseDecide trigZero drawsZero (baseAnt p q) h gridTwenty colonyPos
      = (true, 0) := by
  have hsd := scenario_searchDecision (baseAnt p q) rfl
  simp only [Ant.senseDecide, baseAnt] at hsd ⊢
  exact hsd

theorem update_panic_frame (t : Trig) (r : Draws) (a : Ant)
    (home food : Grid) (foods : List Food) (colony : ℚ × ℚ)
    (hp : 0 < a.panic_timer) :
    Ant.update t r a home food foods colony =
      (handle_boundaries r
        { a with
          angle := a.angle + r.u * WANDER_STRENGTH * 2
          pos := stepPos t a.pos (a.angle + r.u * WANDER_STRENGTH * 2)
            a.speed
          panic_timer := a.panic_timer - 1 },
        home, food, foods) := by
  simp only [Ant.update]
  rw [if_pos hp]

theorem scenarioStep_panic (p q : ℤ) (hq : 0 < q) (s : Ant × Grid)
    (hs : s.1 = baseAnt p q) :
    scenarioStep s = (baseAnt p (q - 1), s.2) := by
  simp only [scenarioStep, hs]
  rw [update_panic_frame trigZero drawsZero (baseAnt p q) s.2 gridTwenty []
    colonyPos (by simpa [baseAnt] using hq)]
  have hang : (baseAnt p q).angle + drawsZero.u * WANDER_STRENGTH * 2
      = (0 : ℚ) := by
    norm_num [baseAnt, drawsZero]
  have hmove : stepPos trigZero (baseAnt p q).pos (0 : ℚ)
      (baseAnt p q).speed = ((100 : ℚ), (100 : ℚ)) := by
    norm_num [stepPos, trigZero, baseAnt]
  have hhb : handle_boundaries drawsZero
      { pos := ((100 : ℚ), (100 : ℚ))
        angle := (0 : ℚ)
        speed := (baseAnt p q).speed
        state := (baseAnt p q).state
        patience := (baseAnt p q).patience
        panic_timer := (baseAnt p q).panic_timer - 1 }
      = baseAnt p (q - 1) := by
    unfold handle_boundaries
    rw [if_pos (by norm_num [SCREEN_WIDTH, SCREEN_HEIGHT])]
    simp [baseAnt]
  simp only [hang, hmove, hhb]

theorem baseAnt_pos (p q : ℤ) : (baseAnt p q).pos = (100, 100) := rfl

theorem baseAnt_angle (p q : ℤ) : (baseAnt p q).angle = 0 := rfl

theorem baseAnt_speed (p q : ℤ) : (baseAnt p q).speed = ANT_SPEED := rfl

theorem baseAnt_state (p q : ℤ) : (baseAnt p q).state = TaskState.SEARCHING :=
  rfl

theorem baseAnt_patience (p q : ℤ) : (baseAnt p q).patience = p := rfl

theorem baseAnt_panic (p q : ℤ) : (baseAnt p q).panic_timer = q := rfl

theorem scenarioStep_ant_eval (p : ℤ) (s : Ant × Grid)
    (hs : s.1 = baseAnt p 0) :
    (scenarioStep s).1 =
      { pos := ((100 : ℚ), (100 : ℚ))
        angle := 0
        speed := ANT_SPEED
        state := TaskState.SEARCHING
        patience := if p - 1 ≤ 0 then MAX_PATIENCE else p - 1
        panic_timer := if p - 1 ≤ 0 then PANIC_DURATION else 0 } := by
  have hsd := scenario_senseDecide p 0 s.2
  simp only [scenarioStep, Ant.update, hs, baseAnt_panic]
  rw [if_neg (lt_irrefl 0)]
  simp only [hsd]
  norm_num [patienceAfterDecision, stepPos, trigZero, drawsZero, baseAnt,
    handle_boundaries, Ant.interact_with_objects, pickupScan, SCREEN_WIDTH,
    SCREEN_HEIGHT]

theorem scenarioStep_normal (p : ℤ) (s : Ant × Grid)
    (hs : s.1 = baseAnt p 0) :
    (scenarioStep s).1 =
      if p - 1 ≤ 0 then baseAnt MAX_PATIENCE PANIC_DURATION
      else baseAnt (p - 1) 0 := by
  rw [scenarioStep_ant_eval p s hs]
  split_ifs <;> rfl

theorem scenario_phase1 : ∀ k : ℕ, k ≤ 299 →
    scenarioAnt k = baseAnt (300 - (k : ℤ)) 0 := by
  intro k
  induction k with
  | zero =>
    intro _
    simp only [scenarioAnt, Function.iterate_zero, id_eq]
    norm_num [MAX_PATIENCE]
  | succ m ih =>
    intro hk
    have ihm := ih (by omega)
    rw [scenarioAnt, Function.iterate_succ_apply']
    rw [scenarioStep_normal (300 - (m : ℤ)) _ ihm]
    rw [if_neg (by omega)]
    rw [show (300 : ℤ) - (m : ℤ) - 1 = 300 - ((m + 1 : ℕ) : ℤ) from by
      push_cast
      ring]

theorem scenario_enter_panic :
    scenarioAnt 300 = baseAnt MAX_PATIENCE PANIC_DURATION := by
  have h299 := scenario_phase1 299 (by norm_num)
  rw [scenarioAnt, show (300 : ℕ) = 299 + 1 from rfl,
    Function.iterate_succ_apply']
  rw [scenarioStep_normal (300 - (299 : ℤ)) _ h299]
  norm_num

theorem scenario_phase2 : ∀ m : ℕ, m ≤ 100 →
    scenarioStep^[300 + m] (baseAnt MAX_PATIENCE 0, zeroGrid) =
      (baseAnt MAX_PATIENCE (100 - (m : ℤ)),
        (scenarioStep^[300] (baseAnt MAX_PATIENCE 0, zeroGrid)).2) := by
  intro m
  induction m with
  | zero =>
    intro _
    have h2 : (scenarioStep^[300] (baseAnt MAX_PATIENCE 0, zeroGrid)).1
        = baseAnt MAX_PATIENCE (100 - ((0 : ℕ) : ℤ)) := by
      have h := scenario_enter_panic
      rw [scenarioAnt] at h
      rw [h]
      norm_num [PANIC_DURATION]
    rw [Nat.add_zero]
    calc scenarioStep^[300] (baseAnt MAX_PATIENCE 0, zeroGrid)
        = ((scenarioStep^[300] (baseAnt MAX_PATIENCE 0, zeroGrid)).1,
           (scenarioStep^[300] (baseAnt MAX_PATIENCE 0, zeroGrid)).2) :=
          (@Prod.mk.eta Ant Grid
            (scenarioStep^[300] (baseAnt MAX_PATIENCE 0, zeroGrid))).symm
      _ = (baseAnt MAX_PATIENCE (100 - ((0 : ℕ) : ℤ)),
           (scenarioStep^[300] (baseAnt MAX_PATIENCE 0, zeroGrid)).2) := by
          rw [h2]
  | succ n ihn =>
    intro hm
    have ihh := ihn (by omega)
    rw [show 300 + (n + 1) = (300 + n) + 1 from rfl,
      Function.iterate_succ_apply']
    rw [ihh]
    rw [scenarioStep_panic MAX_PATIENCE (100 - (n : ℤ)) (by omega) _ rfl]
    rw [show (100 : ℤ) - (n : ℤ) - 1 = 100 - ((n + 1 : ℕ) : ℤ) from by
      push_cast
      ring]

theorem scenario_resume : scenarioAnt 401 = baseAnt 299 0 := by
  have h400 : (scenarioStep^[400] (baseAnt MAX_PATIENCE 0, zeroGrid)).1
      = baseAnt MAX_PATIENCE 0 := by
    have h := scenario_phase2 100 le_rfl
    rw [show (400 : ℕ) = 300 + 100 from rfl, h]
    norm_num
  rw [scenarioAnt, show (401 : ℕ) = 400 + 1 from rfl,
    Function.iterate_succ_apply']
  rw [scenarioStep_normal MAX_PATIENCE _ h400]
  rw [if_neg (by norm_num [MAX_PATIENCE])]
  rw [show MAX_PATIENCE - 1 = (299 : ℤ) from by norm_num [MAX_PATIENCE]]

/-- C8: for the agent forced to sense "on trail" every tick (the synthetic
constant scent grid), starting from a full patience reset: for the first 299
ticks patience falls by exactly 1 per tick with no panic; on tick 300
(= `MAX_PATIENCE`) panic is entered with `panic_timer = PANIC_DURATION` and
patience reset; during the following 100 panic ticks the timer counts down
while patience, position, heading, task state and the home grid are
untouched (no sensing, interaction or deposits); panic ends after exactly
`PANIC_DURATION` such ticks; and on tick 401 normal decision logic resumes
(the trail decrements patience again).  Moreover in every panic tick the
update only perturbs the heading, moves, handles boundaries and decrements
the timer, returning both grids and the food list unchanged. -/
theorem panic_cycle_scenario :
    (∀ k : ℕ, k ≤ 299 → scenarioAnt k = baseAnt (300 - (k : ℤ)) 0) ∧
    scenarioAnt 300 = baseAnt MAX_PATIENCE PANIC_DURATION ∧
    (∀ m : ℕ, m ≤ 100 →
      scenarioAnt (300 + m) = baseAnt MAX_PATIENCE (100 - (m : ℤ)) ∧
      scenarioHome (300 + m) = scenarioHome 300) ∧
    scenarioAnt 401 = baseAnt 299 0 ∧
    (∀ (t : Trig) (r : Draws) (a : Ant) (home food : Grid)
        (foods : List Food) (colony : ℚ × ℚ), 0 < a.panic_timer →
      Ant.update t r a home food foods colony =
        (handle_boundaries r
          { a with
            angle := a.angle + r.u * WANDER_STRENGTH * 2
            pos := stepPos t a.pos (a.angle + r.u * WANDER_STRENGTH * 2)
              a.speed
            panic_timer := a.panic_timer - 1 },
          home, food, foods)) := by
  refine ⟨scenario_phase1, scenario_enter_panic, ?_, scenario_resume,
    update_panic_frame⟩
  intro m hm
  have h := scenario_phase2 m hm
  constructor
  · rw [scenarioAnt, h]
  · simp only [scenarioHome]
    rw [h]

/-- C8 (witness): the timeline evaluated at tick 0, at the panic exit tick
`300 + 100`, and the panic-tick frame property at a concrete panicking
agent. -/
theorem panic_cycle_scenario_witness :
    scenarioAnt 0 = baseAnt (300 - ((0 : ℕ) : ℤ)) 0 ∧
    scenarioAnt (300 + 100) = baseAnt MAX_PATIENCE (100 - ((100 : ℕ) : ℤ)) ∧
    Ant.update trigZero drawsZero (baseAnt 300 5) zeroGrid gridTwenty []
        colonyPos =
      (handle_boundaries drawsZero
        { baseAnt 300 5 with
          angle := (baseAnt 300 5).angle + drawsZero.u * WANDER_STRENGTH * 2
          pos := stepPos trigZero (baseAnt 300 5).pos
            ((baseAnt 300 5).angle + drawsZero.u * WANDER_STRENGTH * 2)
            (baseAnt 300 5).speed
          panic_timer := (baseAnt 300 5).panic_timer - 1 },
        zeroGrid, gridTwenty, []) :=
  ⟨panic_cycle_scenario.1 0 (by norm_num),
    (panic_cycle_scenario.2.2.1 100 (by norm_num)).1,
    panic_cycle_scenario.2.2.2.2 trigZero drawsZero (baseAnt 300 5) zeroGrid
      gridTwenty [] colonyPos (by norm_num [baseAnt_panic])⟩
